import Mathlib

/-!
Shallow embedding of the OctoPrint API client (src/octoprint_api.py).

The Python module wraps an OctoPrint HTTP server: it derives a fixed set of
endpoint URLs from a base URL, attaches an API-key header, and exposes one
method per printer operation.  Each method builds a JSON request envelope,
performs one HTTP round trip and classifies the response status code into an
exception taxonomy.

Modelling decisions:
  * JSON values are the inductive `JVal`; a decoded response body is a `JVal`.
  * An HTTP response is `Response` (status code plus decoded body).
  * The network is an oracle `HttpAction → TransportResult`: for the action the
    client would issue (method, URL, headers, params or body) the oracle either
    returns a `Response` or fails at the transport level, modelling the
    `requests` library raising a connection error before any response exists.
  * Python exceptions become the `PyError` sum; methods return `Except PyError`.
  * Python dicts are association lists in insertion order, which is what
    Python guarantees for `dict` and what `json.dumps` serialises.
-/

/-- JSON values, the universe of decoded response bodies and envelope fields. -/
inductive JVal where
  | null
  | bool (b : Bool)
  | num (n : Int)
  | str (s : String)
  | arr (xs : List JVal)
  | obj (fields : List (String × JVal))

/-- An HTTP response: status code plus already-decoded JSON body. -/
structure Response where
  status_code : Nat
  body : JVal

/-- The Python exceptions that can escape the module's request helpers:
the module's own classes (`HTTPException`, `ServerNotFoundException`,
`NotAuthorizedException`, `PrinterBusyException`) plus exceptions of the
underlying runtime that the module does not catch: the `requests` library's
transport-level `ConnectionError`, and `TypeError`/`KeyError` from dict
operations. -/
inductive PyError where
  | httpException (r : Response)
  | serverNotFoundException (r : Response)
  | notAuthorizedException (r : Response)
  | printerBusyException (r : Response)
  | requestsConnectionError (msg : String)
  | typeError (msg : String)
  | keyError (k : String)

/-- What one network round trip yields: a response, or a transport-level
failure (DNS failure, connection refused, timeout) raised by `requests`
before any response exists. -/
inductive TransportResult where
  | ok (r : Response)
  | netfail (msg : String)

/-- The observable HTTP action a client method issues: an authenticated GET
with optional query parameters, or an authenticated POST with a JSON body. -/
inductive HttpAction where
  | get (url : String) (headers : List (String × String))
      (param : Option (List (String × JVal)))
  | post (url : String) (headers : List (String × String))
      (body : List (String × JVal))

/-- Embedding of `Api._set_url` (src/octoprint_api.py lines 60-78): the dict
of endpoint URLs derived from the base URL, in the source's insertion order. -/
def set_url (base_url : String) : List (String × String) :=
  [("base", base_url),
   ("version", base_url ++ "/api/version"),
   ("files", base_url ++ "/api/files"),
   ("files-sd", base_url ++ "/api/files/sd"),
   ("files-local", base_url ++ "/api/files/local"),
   ("connection", base_url ++ "/api/connection"),
   ("printer", base_url ++ "/api/printer"),
   ("printhead", base_url ++ "/api/printer/printhead"),
   ("tool", base_url ++ "/api/printer/tool"),
   ("bed", base_url ++ "/api/printer/bed"),
   ("sd", base_url ++ "/api/printer/sd"),
   ("command", base_url ++ "/api/printer/command"),
   ("job", base_url ++ "/api/job")]

/-- Python dict assignment `d[k] = v`: replace the value in place if the key
exists, else append the new key at the end (insertion order preserved). -/
def dictSet (m : List (String × String)) (k v : String) : List (String × String) :=
  match m with
  | [] => [(k, v)]
  | (k0, v0) :: rest =>
      if k0 = k then (k, v) :: rest else (k0, v0) :: dictSet rest k v

/-- The state of an `Api` object: the endpoint-URL dict `self._url`, the
header dict `self._header` and the debug flag. -/
structure Api where
  url_map : List (String × String)
  header : List (String × String)
  debug : Bool

/-- Embedding of `Api.__init__` (lines 80-90). -/
def Api.init (base_url : String) (api_key : String) (debug : Bool) : Api :=
  { url_map := set_url base_url,
    header := [("X-Api-Key", api_key), ("content-type", "application/json")],
    debug := debug }

/-- Embedding of the `url` property setter (lines 104-106): assigning the
property re-runs `_set_url`, replacing the whole endpoint dict at once. -/
def Api.url_setter (a : Api) (url_string : String) : Api :=
  { a with url_map := set_url url_string }

/-- Embedding of the `apikey` property setter (lines 96-98): assigning the
property updates only the `X-Api-Key` entry of the header dict. -/
def Api.apikey_setter (a : Api) (api_key : String) : Api :=
  { a with header := dictSet a.header "X-Api-Key" api_key }

/-- Python `self._url[key]`.  Every access in the source uses a key that
`_set_url` always populates, so the lookup never misses; the default only
totalises the Lean function. -/
def Api.urlFor (a : Api) (k : String) : String :=
  (a.url_map.lookup k).getD ""

/-- Status-code classification of `_get_request` (lines 108-116), applied to
what the transport produced.  A transport-level failure is not caught by the
source, so the `requests` connection error propagates unchanged; otherwise:
401 raises `NotAuthorizedException`, any other status at least 400 raises
`HTTPException`, and any smaller status returns the JSON-decoded body. -/
def classify_get (tr : TransportResult) : Except PyError JVal :=
  match tr with
  | .netfail msg => .error (.requestsConnectionError msg)
  | .ok response =>
      if response.status_code = 401 then
        .error (.notAuthorizedException response)
      else if 400 ≤ response.status_code then
        .error (.httpException response)
      else
        .ok response.body

/-- Status-code classification of `_post_request` (lines 118-132): 409 raises
`PrinterBusyException`, 401 raises `NotAuthorizedException`, any other status
at least 400 raises `HTTPException`, and otherwise the raw response object is
returned.  A transport-level failure again propagates unchanged. -/
def classify_post (tr : TransportResult) : Except PyError Response :=
  match tr with
  | .netfail msg => .error (.requestsConnectionError msg)
  | .ok response =>
      if response.status_code = 409 then
        .error (.printerBusyException response)
      else if response.status_code = 401 then
        .error (.notAuthorizedException response)
      else if 400 ≤ response.status_code then
        .error (.httpException response)
      else
        .ok response

/-- Embedding of `Api._get_request`: issue the authenticated GET through the
transport oracle and classify the outcome. -/
def Api.get_request (a : Api) (transport : HttpAction → TransportResult)
    (url : String) (param : Option (List (String × JVal))) : Except PyError JVal :=
  classify_get (transport (.get url a.header param))

/-- Embedding of `Api._post_request`: issue the authenticated POST through the
transport oracle and classify the outcome. -/
def Api.post_request (a : Api) (transport : HttpAction → TransportResult)
    (url : String) (request : List (String × JVal)) : Except PyError Response :=
  classify_post (transport (.post url a.header request))

/-- Python truthiness (`if x:`) restricted to the JSON universe: `None`,
`False`, zero, the empty string, the empty list and the empty dict are falsy,
everything else is truthy. -/
def JVal.truthy : JVal → Bool
  | .null => false
  | .bool b => b
  | .num n => n != 0
  | .str s => !s.isEmpty
  | .arr xs => !xs.isEmpty
  | .obj fs => !fs.isEmpty

/-- Python `x is None` for an optional argument whose default is `None`. -/
def JVal.isNone : JVal → Bool
  | .null => true
  | _ => false

/-- The request envelope built by `Api.home` (lines 171-189): the axes list
collects, in the order x then y then z, exactly the axes whose argument is
truthy, and the envelope is `{command: "home", axes: <list>}`. -/
def home_request (x y z : JVal) : List (String × JVal) :=
  let home_set : List String :=
    (if x.truthy then ["x"] else []) ++
    (if y.truthy then ["y"] else []) ++
    (if z.truthy then ["z"] else [])
  [("command", JVal.str "home"), ("axes", JVal.arr (home_set.map JVal.str))]

/-- Embedding of `Api.home`: POST the home envelope to the printhead URL. -/
def Api.home (a : Api) (transport : HttpAction → TransportResult)
    (x y z : JVal) : Except PyError Response :=
  a.post_request transport (a.urlFor "printhead") (home_request x y z)

/-- The request envelope built by `Api.jog` (lines 191-210): start from
`{command: "jog"}` and append a key for each of x, y, z, in that order, when
the argument is not `None`; the provided value is kept as given, so zero is
distinct from omission. -/
def jog_request (x y z : JVal) : List (String × JVal) :=
  let request := [("command", JVal.str "jog")]
  let request := if x.isNone then request else request ++ [("x", x)]
  let request := if y.isNone then request else request ++ [("y", y)]
  if z.isNone then request else request ++ [("z", z)]

/-- Embedding of `Api.jog`: POST the jog envelope to the printhead URL. -/
def Api.jog (a : Api) (transport : HttpAction → TransportResult)
    (x y z : JVal) : Except PyError Response :=
  a.post_request transport (a.urlFor "printhead") (jog_request x y z)

/-- Python `str.lower` for the ASCII strings the client handles. -/
def pyLower (s : String) : String :=
  String.mk (s.data.map Char.toLower)

/-- Contiguous-substring test on character lists, used to model Python's
`needle in haystack` on strings. -/
def charsContain (needle hay : List Char) : Bool :=
  match hay with
  | [] => needle.isEmpty
  | _ :: t => needle.isPrefixOf hay || charsContain needle t

/-- Python `target in value` for a JSON value: key membership for a dict,
element membership for a list (a string element equal to `target`), substring
test for a string, and a `TypeError` for the non-container values. -/
def pyIn (target : String) : JVal → Except PyError Bool
  | .obj fields => .ok (fields.lookup target).isSome
  | .arr xs =>
      .ok (xs.any (fun v => match v with | .str s => s = target | _ => false))
  | .str s => .ok (charsContain target.data s.data)
  | _ => .error (.typeError "argument of type is not iterable")

/-- Python `value[target]` with a string subscript: dict lookup (or
`KeyError`), and a `TypeError` on every other value. -/
def pyIndex (v : JVal) (target : String) : Except PyError JVal :=
  match v with
  | .obj fields =>
      match fields.lookup target with
      | some x => .ok x
      | none => .error (.keyError target)
  | _ => .error (.typeError "indices must be integers")

/-- Embedding of `Api._get_temperatures` (lines 247-253): GET the given URL
with query `{history: "false", limit: 2}`, then return the sub-value stored
under `target_string` when that key is present and `None` when it is absent. -/
def Api.get_temperatures (a : Api) (transport : HttpAction → TransportResult)
    (url : String) (target_string : String) : Except PyError (Option JVal) :=
  let param := some [("history", JVal.str "false"), ("limit", JVal.num 2)]
  match a.get_request transport url param with
  | .error e => .error e
  | .ok return_val =>
      match pyIn target_string return_val with
      | .error e => .error e
      | .ok true =>
          match pyIndex return_val target_string with
          | .error e => .error e
          | .ok v => .ok (some v)
      | .ok false => .ok none

/-- Embedding of `Api.get_tool_temp` (lines 255-265): extract key `tool<n>`
from the tool endpoint's temperature response. -/
def Api.get_tool_temp (a : Api) (transport : HttpAction → TransportResult)
    (tool : Nat) : Except PyError (Option JVal) :=
  a.get_temperatures transport (a.urlFor "tool") ("tool" ++ toString tool)

/-- Embedding of `Api.get_bed_temp` (lines 278-287): extract key `bed` from
the bed endpoint's temperature response. -/
def Api.get_bed_temp (a : Api) (transport : HttpAction → TransportResult) :
    Except PyError (Option JVal) :=
  a.get_temperatures transport (a.urlFor "bed") "bed"

/-- Embedding of `Api.get_files` (lines 375-386): when the location argument
is exactly `local` or `sdcard` the GET goes to `<files>/<location>`, and on
any other argument (including `None`) it goes to the all-files URL. -/
def Api.get_files (a : Api) (transport : HttpAction → TransportResult)
    (location : Option String) : Except PyError JVal :=
  let url :=
    match location with
    | some loc =>
        if loc = "local" ∨ loc = "sdcard" then
          a.urlFor "files" ++ "/" ++ loc
        else
          a.urlFor "files"
    | none => a.urlFor "files"
  a.get_request transport url none

/-- Embedding of `Api.job` (lines 402-421): when the lowercased command is in
the fixed set the envelope `{command: <lowercased>}` is POSTed to the job URL
and the response returned; on any other command the method falls off the end
of the `if` and returns `None` without issuing a request. -/
def Api.job (a : Api) (transport : HttpAction → TransportResult)
    (command : String) : Except PyError (Option Response) :=
  if pyLower command ∈ ["start", "cancel", "restart", "pause"] then
    match a.post_request transport (a.urlFor "job") [("command", JVal.str (pyLower command))] with
    | .error e => .error e
    | .ok r => .ok (some r)
  else
    .ok none

/-- The spec's documented endpoint table: logical resource name paired with
the exact path suffix, in the spec's order.  Used to compare the code's
endpoint registry against the documented twelve suffixes. -/
def documentedEndpoints : List (String × String) :=
  [("version", "/api/version"),
   ("files", "/api/files"),
   ("files-sd", "/api/files/sd"),
   ("files-local", "/api/files/local"),
   ("connection", "/api/connection"),
   ("printer", "/api/printer"),
   ("printhead", "/api/printer/printhead"),
   ("tool", "/api/printer/tool"),
   ("bed", "/api/printer/bed"),
   ("sd", "/api/printer/sd"),
   ("command", "/api/printer/command"),
   ("job", "/api/job")]

/-- The kind of outcome a request helper produced: success, one of the
module's exception classes, or a propagated runtime exception.  This is the
discriminant the error taxonomy classifies by; the payload is ignored. -/
inductive ErrTag where
  | okTag
  | httpTag
  | serverNotFoundTag
  | notAuthorizedTag
  | printerBusyTag
  | connTag
  | typeTag
  | keyTag

/-- Outcome discriminant of a request-helper result. -/
def tagOf {α : Type} : Except PyError α → ErrTag
  | .ok _ => .okTag
  | .error (.httpException _) => .httpTag
  | .error (.serverNotFoundException _) => .serverNotFoundTag
  | .error (.notAuthorizedException _) => .notAuthorizedTag
  | .error (.printerBusyException _) => .printerBusyTag
  | .error (.requestsConnectionError _) => .connTag
  | .error (.typeError _) => .typeTag
  | .error (.keyError _) => .keyTag

/-- A concrete client, matching the spec's end-to-end scenario. -/
def sampleApi : Api := Api.init "http://printer.local:5000" "ABC123" false

/-- A transport oracle whose server answers every request with 200 and an
empty body. -/
def okTransport : HttpAction → TransportResult :=
  fun _ => .ok ⟨200, .null⟩

/-- A transport oracle whose server answers every request with 200 and a
temperature report for tool 0 and the bed. -/
def tempTransport : HttpAction → TransportResult :=
  fun _ => .ok ⟨200, .obj [("tool0", .num 210), ("bed", .num 60)]⟩

theorem set_url_spec (u : String) :
    (set_url u).length = 13 ∧
    (set_url u).map Prod.fst = "base" :: documentedEndpoints.map Prod.fst ∧
    (set_url u).lookup "base" = some u ∧
    ∀ p ∈ documentedEndpoints, (set_url u).lookup p.1 = some (u ++ p.2) := by
  refine ⟨rfl, rfl, rfl, ?_⟩
  intro p hp
  fin_cases hp <;> rfl

/-- C1: for every server response, a GET with status 401 raises
`NotAuthorizedException`, any other status at least 400 raises
`HTTPException`, and any status below 400 returns the decoded body; a POST
with status 409 raises `PrinterBusyException`, with status 401 raises
`NotAuthorizedException`, with any other status at least 400 raises
`HTTPException`, and with any 2xx status returns the raw response.  The
outcome kind depends only on the status code, never on the body, and the
classifiers are pure functions, so repeated calls on the same input classify
identically. -/
theorem statusCodeClassification (r : Response) :
    (r.status_code = 401 → classify_get (.ok r) = .error (.notAuthorizedException r)) ∧
    (r.status_code ≠ 401 → 400 ≤ r.status_code →
      classify_get (.ok r) = .error (.httpException r)) ∧
    (r.status_code < 400 → classify_get (.ok r) = .ok r.body) ∧
    (r.status_code = 409 → classify_post (.ok r) = .error (.printerBusyException r)) ∧
    (r.status_code = 401 → classify_post (.ok r) = .error (.notAuthorizedException r)) ∧
    (r.status_code ≠ 409 → r.status_code ≠ 401 → 400 ≤ r.status_code →
      classify_post (.ok r) = .error (.httpException r)) ∧
    (200 ≤ r.status_code → r.status_code < 300 → classify_post (.ok r) = .ok r) ∧
    (∀ b : JVal,
      tagOf (classify_get (.ok ⟨r.status_code, b⟩)) = tagOf (classify_get (.ok r)) ∧
      tagOf (classify_post (.ok ⟨r.status_code, b⟩)) = tagOf (classify_post (.ok r))) := by
  refine ⟨fun h => ?_, fun h1 h2 => ?_, fun h => ?_, fun h => ?_, fun h => ?_,
    fun h1 h2 h3 => ?_, fun h1 h2 => ?_, fun b => ⟨?_, ?_⟩⟩
  · simp only [classify_get]
    rw [if_pos h]
  · simp only [classify_get]
    rw [if_neg h1, if_pos h2]
  · simp only [classify_get]
    rw [if_neg (by omega), if_neg (by omega)]
  · simp only [classify_post]
    rw [if_pos h]
  · simp only [classify_post]
    rw [if_neg (by omega), if_pos h]
  · simp only [classify_post]
    rw [if_neg h1, if_neg h2, if_pos h3]
  · simp only [classify_post]
    rw [if_neg (by omega), if_neg (by omega), if_neg (by omega)]
  · dsimp only [classify_get]
    split_ifs <;> rfl
  · dsimp only [classify_post]
    split_ifs <;> rfl

/-- Witness for C1 at concrete responses: statuses 401, 500 and 200 on GET,
and 409, 401, 500 and 204 on POST. -/
theorem statusCodeClassificationW :
    classify_get (.ok ⟨401, .null⟩) = .error (.notAuthorizedException ⟨401, .null⟩) ∧
    classify_get (.ok ⟨500, .null⟩) = .error (.httpException ⟨500, .null⟩) ∧
    classify_get (.ok ⟨200, .str "v"⟩) = .ok (.str "v") ∧
    classify_post (.ok ⟨409, .null⟩) = .error (.printerBusyException ⟨409, .null⟩) ∧
    classify_post (.ok ⟨401, .null⟩) = .error (.notAuthorizedException ⟨401, .null⟩) ∧
    classify_post (.ok ⟨500, .null⟩) = .error (.httpException ⟨500, .null⟩) ∧
    classify_post (.ok ⟨204, .null⟩) = .ok ⟨204, .null⟩ :=
  ⟨(statusCodeClassification ⟨401, .null⟩).1 rfl,
   (statusCodeClassification ⟨500, .null⟩).2.1 (by decide) (by decide),
   (statusCodeClassification ⟨200, .str "v"⟩).2.2.1 (by decide),
   (statusCodeClassification ⟨409, .null⟩).2.2.2.1 rfl,
   (statusCodeClassification ⟨401, .null⟩).2.2.2.2.1 rfl,
   (statusCodeClassification ⟨500, .null⟩).2.2.2.2.2.1 (by decide) (by decide) (by decide),
   (statusCodeClassification ⟨204, .null⟩).2.2.2.2.2.2.1 (by decide) (by decide)⟩

/-- C2, counterexample: the endpoint dict built from the base URL
`http://h` has an entry (`base` mapped to the base URL itself) whose value is
not one of the twelve documented suffix-derived URLs, so the claim that the
mapping holds exactly the twelve suffix-derived URLs and no other entries is
false. -/
theorem endpointSetBaseEntryCex :
    ¬ (∀ p ∈ set_url "http://h",
        p.2 ∈ documentedEndpoints.map (fun q => "http://h" ++ q.2)) := by
  decide

/-- C2, amended: building the endpoint set (at construction or on assigning
the url property) produces a mapping with exactly thirteen entries: the
twelve documented suffix-derived URLs under their logical names, plus a
`base` entry mapping to the base URL itself, and no others. -/
theorem endpointSetThirteenEntries (u k : String) (d : Bool) (a : Api) :
    (Api.init u k d).url_map = set_url u ∧
    (a.url_setter u).url_map = set_url u ∧
    (set_url u).length = 13 ∧
    (set_url u).map Prod.fst = "base" :: documentedEndpoints.map Prod.fst ∧
    (set_url u).lookup "base" = some u ∧
    (∀ p ∈ documentedEndpoints, (set_url u).lookup p.1 = some (u ++ p.2)) :=
  ⟨rfl, rfl, (set_url_spec u).1, (set_url_spec u).2.1,
   (set_url_spec u).2.2.1, (set_url_spec u).2.2.2⟩

/-- Witness for the amended C2 at the spec's sample base URL. -/
theorem endpointSetThirteenEntriesW :
    ("files", "/api/files") ∈ documentedEndpoints ∧
    (set_url "http://printer.local:5000").lookup "files" =
      some ("http://printer.local:5000" ++ "/api/files") :=
  ⟨by decide,
   (endpointSetThirteenEntries "http://printer.local:5000" "ABC123" false
      sampleApi).2.2.2.2.2 ("files", "/api/files") (by decide)⟩

/-- C9: the endpoint set is consistent under every mutation.  Construction
and each assignment of the url property replace the whole endpoint dict with
`set_url` of the new base URL in one step, after which every documented key
is present and mapped to the current base URL extended by its documented
suffix; assigning the apikey property touches only the header dict and
leaves the endpoint dict unchanged. -/
theorem endpointSetInvariant (u u2 k k2 : String) (d : Bool) (a : Api) :
    (Api.init u k d).url_map = set_url u ∧
    (Api.url_setter a u2).url_map = set_url u2 ∧
    (Api.apikey_setter a k2).url_map = a.url_map ∧
    ((set_url u2).map Prod.fst = "base" :: documentedEndpoints.map Prod.fst) ∧
    (∀ p ∈ documentedEndpoints, (set_url u2).lookup p.1 = some (u2 ++ p.2)) :=
  ⟨rfl, rfl, rfl, (set_url_spec u2).2.1, (set_url_spec u2).2.2.2⟩

/-- Witness for C9: rotating the key on the sample client leaves its
endpoint dict unchanged, and after re-assigning the base URL the job
endpoint is derived from the new base. -/
theorem endpointSetInvariantW :
    (Api.apikey_setter sampleApi "K2").url_map = sampleApi.url_map ∧
    (set_url "http://h2").lookup "job" = some ("http://h2" ++ "/api/job") :=
  ⟨(endpointSetInvariant "http://h" "http://h2" "k" "K2" false sampleApi).2.2.1,
   (endpointSetInvariant "http://h" "http://h2" "k" "K2" false
      sampleApi).2.2.2.2 ("job", "/api/job") (by decide)⟩

/-- C3: the code lets a transport-level failure propagate as the transport
library's own connection error through both request helpers, and no
execution of either helper ever produces `ServerNotFoundException`: the
exception class the module defines for an unreachable server is dead code,
so the documented `ServerUnreachableError` classification never happens. -/
theorem transportFailurePropagation (msg : String) (tr : TransportResult) (r : Response) :
    classify_get (.netfail msg) = .error (.requestsConnectionError msg) ∧
    classify_post (.netfail msg) = .error (.requestsConnectionError msg) ∧
    classify_get tr ≠ .error (.serverNotFoundException r) ∧
    classify_post tr ≠ .error (.serverNotFoundException r) := by
  refine ⟨rfl, rfl, ?_, ?_⟩
  · cases tr with
    | netfail m => simp [classify_get]
    | ok resp =>
        simp only [classify_get]
        split_ifs <;> simp
  · cases tr with
    | netfail m => simp [classify_post]
    | ok resp =>
        simp only [classify_post]
        split_ifs <;> simp

/-- C4: for the command string `blast off`, whose lowercasing is not in the
fixed command set, `job` silently returns `None` without consulting the
transport at all (the result is the same for every transport oracle), so no
request is sent and no error of any kind is raised. -/
theorem invalidJobCommandSilentNoop (a : Api) (transport : HttpAction → TransportResult) :
    a.job transport "blast off" = .ok none := by
  unfold Api.job
  rw [if_neg (by decide)]

/-- C5: the jog envelope holds `command: "jog"` plus a key for exactly those
axes whose argument is not `None`, carrying the given value; in particular
jog with x = 10 yields `{command: "jog", x: 10}` with no y or z key, and jog
with x = 0 yields `{command: "jog", x: 0}`, zero being a provided value
distinct from omission; the envelope is POSTed to the printhead URL. -/
theorem jogEnvelopeShape (x y z : JVal) (a : Api)
    (transport : HttpAction → TransportResult) :
    (jog_request x y z).lookup "command" = some (.str "jog") ∧
    (jog_request x y z).lookup "x" = (if x.isNone then none else some x) ∧
    (jog_request x y z).lookup "y" = (if y.isNone then none else some y) ∧
    (jog_request x y z).lookup "z" = (if z.isNone then none else some z) ∧
    jog_request (.num 10) .null .null = [("command", .str "jog"), ("x", .num 10)] ∧
    jog_request (.num 0) .null .null = [("command", .str "jog"), ("x", .num 0)] ∧
    a.jog transport x y z =
      a.post_request transport (a.urlFor "printhead") (jog_request x y z) := by
  refine ⟨?_, ?_, ?_, ?_, rfl, rfl, rfl⟩ <;>
    (unfold jog_request
     cases hx : x.isNone <;> cases hy : y.isNone <;> cases hz : z.isNone <;>
       simp [hx, hy, hz, List.lookup])

/-- C6: the home envelope is `{command: "home", axes: L}` where `L` lists, in
the fixed order x, y, z, exactly the axes whose flag is truthy; with flags
true, false, true the axes list is `["x", "z"]`, and with no truthy flag it
is empty; the envelope is POSTed to the printhead URL. -/
theorem homeEnvelopeShape (x y z : JVal) (a : Api)
    (transport : HttpAction → TransportResult) :
    (home_request x y z).lookup "command" = some (.str "home") ∧
    (home_request x y z).lookup "axes" =
      some (.arr ((([("x", x), ("y", y), ("z", z)].filter
        (fun p => p.2.truthy)).map (fun p => JVal.str p.1)))) ∧
    home_request (.bool true) (.bool false) (.bool true) =
      [("command", .str "home"), ("axes", .arr [.str "x", .str "z"])] ∧
    home_request .null .null .null = [("command", .str "home"), ("axes", .arr [])] ∧
    a.home transport x y z =
      a.post_request transport (a.urlFor "printhead") (home_request x y z) := by
  refine ⟨rfl, ?_, rfl, rfl, rfl⟩
  unfold home_request
  cases hx : x.truthy <;> cases hy : y.truthy <;> cases hz : z.truthy <;>
    simp [hx, hy, hz, List.lookup, List.filter]

theorem get_temperatures_obj (a : Api) (transport : HttpAction → TransportResult)
    (url target : String) (s : Nat) (fields : List (String × JVal))
    (hs : s < 400)
    (h : transport (.get url a.header
          (some [("history", .str "false"), ("limit", .num 2)])) = .ok ⟨s, .obj fields⟩) :
    a.get_temperatures transport url target = .ok (fields.lookup target) := by
  unfold Api.get_temperatures Api.get_request
  dsimp only
  rw [h]
  simp only [classify_get]
  rw [if_neg (by omega), if_neg (by omega)]
  cases hl : fields.lookup target with
  | none => simp [pyIn, hl]
  | some v => simp [pyIn, pyIndex, hl]

/-- C7: `get_tool_temp n` issues a GET on the tool endpoint with query
`{history: "false", limit: 2}` and, for any decoded object response, returns
the sub-value stored under key `tool<n>` when that key is present and `None`
when it is absent, never an error; `get_bed_temp` performs the same
extraction for key `bed` against the bed endpoint. -/
theorem temperatureExtraction (a : Api) (transport : HttpAction → TransportResult)
    (n : Nat) (s1 s2 : Nat) (toolFields bedFields : List (String × JVal))
    (h1 : s1 < 400)
    (ht : transport (.get (a.urlFor "tool") a.header
            (some [("history", .str "false"), ("limit", .num 2)])) = .ok ⟨s1, .obj toolFields⟩)
    (h2 : s2 < 400)
    (hb : transport (.get (a.urlFor "bed") a.header
            (some [("history", .str "false"), ("limit", .num 2)])) = .ok ⟨s2, .obj bedFields⟩) :
    a.get_tool_temp transport n = .ok (toolFields.lookup ("tool" ++ toString n)) ∧
    a.get_bed_temp transport = .ok (bedFields.lookup "bed") :=
  ⟨get_temperatures_obj a transport (a.urlFor "tool") ("tool" ++ toString n)
      s1 toolFields h1 ht,
   get_temperatures_obj a transport (a.urlFor "bed") "bed" s2 bedFields h2 hb⟩

/-- Witness for C7: against a server reporting tool 0 at 210 and the bed at
60, `get_tool_temp 0` returns the tool0 sub-value and `get_bed_temp` the bed
sub-value. -/
theorem temperatureExtractionW :
    sampleApi.get_tool_temp tempTransport 0 = .ok (some (.num 210)) ∧
    sampleApi.get_bed_temp tempTransport = .ok (some (.num 60)) := by
  have h := temperatureExtraction sampleApi tempTransport 0 200 200
      [("tool0", .num 210), ("bed", .num 60)] [("tool0", .num 210), ("bed", .num 60)]
      (by omega) rfl (by omega) rfl
  exact ⟨h.1.trans (by rfl), h.2.trans (by rfl)⟩

/-- C8: for every command whose lowercasing is in the allowed set, `job`
POSTs the envelope whose command field is the lowercased input to the job
URL (and wraps the raw response); in particular `job "START"` and
`job "start"` behave identically, both sending `{command: "start"}`. -/
theorem jobCommandNormalization (a : Api) (transport : HttpAction → TransportResult)
    (c : String) (h : pyLower c ∈ ["start", "cancel", "restart", "pause"]) :
    a.job transport c =
      Except.map (fun r => some r)
        (a.post_request transport (a.urlFor "job") [("command", JVal.str (pyLower c))]) ∧
    a.job transport "START" = a.job transport "start" := by
  constructor
  · unfold Api.job
    rw [if_pos h]
    cases a.post_request transport (a.urlFor "job") [("command", JVal.str (pyLower c))] with
    | error e => rfl
    | ok r => rfl
  · unfold Api.job
    rw [show pyLower "START" = pyLower "start" from by decide]

/-- Witness for C8: `START` lowercases into the allowed set and the sample
client treats `job "START"` and `job "start"` identically. -/
theorem jobCommandNormalizationW :
    (pyLower "START" ∈ ["start", "cancel", "restart", "pause"]) ∧
    sampleApi.job okTransport "START" = sampleApi.job okTransport "start" :=
  ⟨by decide, (jobCommandNormalization sampleApi okTransport "START" (by decide)).2⟩

/-- C10: for every location argument other than exactly `local` or `sdcard`
(such as `sd` or `Local`), `get_files` silently issues the GET against the
all-files URL and behaves exactly as if no location had been given; no
validation or location error is raised. -/
theorem filesLocationFallback (a : Api) (transport : HttpAction → TransportResult)
    (loc : String) (hl : loc ≠ "local") (hs : loc ≠ "sdcard") :
    a.get_files transport (some loc) = a.get_files transport none ∧
    a.get_files transport (some loc) =
      a.get_request transport (a.urlFor "files") none := by
  have hn : ¬ (loc = "local" ∨ loc = "sdcard") := by
    intro hd
    cases hd with
    | inl h => exact hl h
    | inr h => exact hs h
  constructor <;>
    (unfold Api.get_files
     dsimp only
     rw [if_neg hn])

/-- Witness for C10: the misspelling `sd` lists all files, exactly like the
call with no location. -/
theorem filesLocationFallbackW :
    sampleApi.get_files okTransport (some "sd") = sampleApi.get_files okTransport none :=
  (filesLocationFallback sampleApi okTransport "sd" (by decide) (by decide)).1
